import Mathlib

/-!
Verification development for the `network-traffic` batch-analysis pipeline
(`src/main.py`, `src/agents.py`).

The external inference service is reached through a single boundary
operation `invoke_model(prompt, system_prompt) -> text|null`.  Every caller
in the source uses the returned text only through the same three-way
pattern: the text is `None`, or stripping code fences and decoding with
`json.loads` fails with `JSONDecodeError`, or decoding yields a JSON value.
We therefore embed the boundary response as `SvcResponse` directly at that
granularity, and JSON values as the inductive `Json`.

Files `src/models.py`, `src/bedrock_client.py`, `src/config.py` and the
`TimelineAgent` class are referenced by the source but absent from the
repository snapshot; the corresponding definitions below carry doc comments
saying they are modelled from the spec.
-/

/-- JSON values as decoded by `json.loads`: objects become ordered key/value
association lists (JSON object keys are always strings), arrays become
lists, numbers are modelled as integers (no claim involves fractional
numbers). `null` doubles as Python `None`. -/
inductive Json where
  | null : Json
  | bool (b : Bool) : Json
  | num (n : Int) : Json
  | str (s : String) : Json
  | arr (xs : List Json) : Json
  | obj (kvs : List (String × Json)) : Json

/-- Structural equality test on JSON values (needed because `Json` nests
lists, which blocks the derived instance). -/
def Json.beq : Json → Json → Bool
  | .null, .null => true
  | .bool a, .bool b => a = b
  | .num a, .num b => a = b
  | .str a, .str b => a = b
  | .arr [], .arr [] => true
  | .arr (x :: xs), .arr (y :: ys) => Json.beq x y && Json.beq (.arr xs) (.arr ys)
  | .obj [], .obj [] => true
  | .obj ((k, v) :: xs), .obj ((k', v') :: ys) =>
    decide (k = k') && Json.beq v v' && Json.beq (.obj xs) (.obj ys)
  | _, _ => false

/-- Decidable equality on JSON values, through `Json.beq`. -/
instance : DecidableEq Json := fun a b => decidable_of_iff (Json.beq a b = true) (by
  induction a, b using Json.beq.induct with
  | case9 a b h1 h2 h3 h4 h5 h6 h7 h8 =>
    simp_all [Json.beq]
    intro h
    subst h
    cases a with
    | null => exact h1 rfl rfl
    | bool x =>
      cases x with
      | false => exact h2.1.1 rfl rfl
      | true => exact h2.2.2 rfl rfl
    | num n => exact h3 n n rfl rfl
    | str s => exact h4 s s rfl rfl
    | arr xs =>
      cases xs with
      | nil => exact h5 rfl rfl
      | cons x rest => exact h6 x rest x rest rfl rfl
    | obj kvs =>
      cases kvs with
      | nil => exact h7 rfl rfl
      | cons kv rest =>
        obtain ⟨k, v⟩ := kv
        exact h8 k v rest k v rest rfl rfl
  | _ => simp_all [Json.beq])

/-- Python hashability of a decoded JSON value: lists and dicts are
unhashable (using one as a `dict` key or `set` element raises `TypeError`);
`None`, booleans, numbers and strings are hashable. -/
def Json.hashable : Json → Bool
  | .arr _ => false
  | .obj _ => false
  | _ => true

/-- Outcome of one `invoke_model` call as seen by the calling agent after
its strip-code-fences-and-`json.loads` step: the service returned `None`,
or returned text that fails to decode (`JSONDecodeError`), or returned text
that decodes to the JSON value `j`. -/
inductive SvcResponse where
  | noResponse : SvcResponse
  | undecodable : SvcResponse
  | decoded (j : Json) : SvcResponse
deriving DecidableEq

/-- Exceptions the embedded code can raise. `exception msg` is an explicit
`raise Exception(msg)`; the others are the runtime errors relevant here:
`attributeError` from calling `.get` on a non-dict, `typeError` from
`dict.update` on a non-dict argument, `validationError` from pydantic model
construction with an ill-typed field. -/
inductive PyErr where
  | exception (msg : String) : PyErr
  | attributeError : PyErr
  | typeError : PyErr
  | validationError : PyErr
deriving DecidableEq

/-- String rendering of a caught exception, `str(e)` in the source. Only
the `exception` case's text is inspected by any claim. -/
def PyErr.text : PyErr → String
  | .exception msg => msg
  | .attributeError => "AttributeError"
  | .typeError => "TypeError"
  | .validationError => "ValidationError"

/-- Modelled from the spec: `WorkItem` / `Transcript` of the absent
`src/models.py` — `id: string (unique, stable across runs), content:
string`; the engine reads only `id`. -/
structure Transcript where
  id : String
  content : String
deriving DecidableEq

/-- Modelled from the spec: `TimelineEvent` of the absent `src/models.py` —
order integer, actor, description; field names follow their use in
`src/agents.py` (`e.timestamp_order`, `e.actor`, `e.description`). -/
structure TimelineEvent where
  timestamp_order : Int
  actor : String
  description : String
deriving DecidableEq

/-- Modelled from the spec: `AnalysisResult` of the absent `src/models.py`,
with the fields the source constructs and serializes
(`transcript_id`, `timeline`, `root_cause`, `root_cause_category`,
`sentiment`, `summary`, `actionable_insight: string|null`). -/
structure AnalysisResult where
  transcript_id : String
  timeline : List TimelineEvent
  root_cause : String
  root_cause_category : String
  sentiment : String
  summary : String
  actionable_insight : Option String
deriving DecidableEq

/-- Modelled from the spec: `AggregateReport` of the absent
`src/models.py`, with the fields `AggregationAgent.aggregate_results`
constructs. Distribution keys mirror the runtime dict keys: root-cause
counts can be keyed by arbitrary normalized values, sentiment counts by the
(string) `sentiment` field. -/
structure AggregateReport where
  total_transcripts : Nat
  root_cause_distribution : List (Json × Nat)
  sentiment_distribution : List (String × Nat)
  common_timeline_patterns : List String
  key_findings : List String
  recommendations : List String
deriving DecidableEq

/-- Python `result.get(key, default)` for string-typed pydantic fields, as
used when `AnalysisResult` is built in `analyze_root_cause`: on a non-dict
receiver `.get` raises `AttributeError`; an absent key yields the default;
a present string is taken as is; a present non-string value makes pydantic
construction raise a validation error. -/
def getStrD (j : Json) (k : String) (d : String) : Except PyErr String :=
  match j with
  | .obj kvs =>
    match List.lookup k kvs with
    | none => .ok d
    | some (.str s) => .ok s
    | some _ => .error .validationError
  | _ => .error .attributeError

/-- Python `result.get(key)` for the `Optional[str]` field
`actionable_insight`: absent key or JSON `null` yield `None`; a string is
kept; any other value fails pydantic validation. Raises `AttributeError`
on a non-dict receiver. -/
def getOptStr (j : Json) (k : String) : Except PyErr (Option String) :=
  match j with
  | .obj kvs =>
    match List.lookup k kvs with
    | none => .ok none
    | some .null => .ok none
    | some (.str s) => .ok (some s)
    | some _ => .error .validationError
  | _ => .error .attributeError

/-- Python `output.get(key, [])` for the `List[str]` fields of
`AggregateReport`: absent key yields `[]`; a present array of strings is
taken as is; an array with a non-string element, or a non-array value,
fails pydantic validation; a non-dict receiver raises `AttributeError`. -/
def getStrListD (j : Json) (k : String) : Except PyErr (List String) :=
  match j with
  | .obj kvs =>
    match List.lookup k kvs with
    | none => .ok []
    | some (.arr xs) =>
      match xs.mapM (fun x => match x with | Json.str s => some s | _ => none) with
      | some ss => .ok ss
      | none => .error .validationError
    | some _ => .error .validationError
  | _ => .error .attributeError

/-- The default record dict of `RootCauseAgent.analyze_root_cause`
(src/agents.py lines 46-52), used whenever the external response is missing
or fails to decode. -/
def defaultRootCauseJson : Json :=
  Json.obj [("root_cause", Json.str "Unknown"),
            ("root_cause_category", Json.str "Other"),
            ("sentiment", Json.str "Neutral"),
            ("summary", Json.str "Analysis failed"),
            ("actionable_insight", Json.null)]

/-- Construction of the returned `AnalysisResult` in
`RootCauseAgent.analyze_root_cause` (src/agents.py lines 61-69): each field
is read from the (possibly service-supplied) `result` value with
`result.get(...)` and the source's per-field defaults; any raised
`AttributeError` or validation error propagates. -/
def buildAnalysisResult (tid : String) (tl : List TimelineEvent) (result : Json) :
    Except PyErr AnalysisResult :=
  match getStrD result "root_cause" "Unknown" with
  | .error e => .error e
  | .ok rc =>
    match getStrD result "root_cause_category" "Other" with
    | .error e => .error e
    | .ok rcc =>
      match getStrD result "sentiment" "Neutral" with
      | .error e => .error e
      | .ok snt =>
        match getStrD result "summary" "No summary" with
        | .error e => .error e
        | .ok sm =>
          match getOptStr result "actionable_insight" with
          | .error e => .error e
          | .ok ai =>
            .ok { transcript_id := tid, timeline := tl, root_cause := rc,
                  root_cause_category := rcc, sentiment := snt, summary := sm,
                  actionable_insight := ai }

/-- `RootCauseAgent.analyze_root_cause` (src/agents.py lines 43-69): start
from the default record dict; if the external response is present and
decodes, it replaces the whole dict; then build the `AnalysisResult`,
taking `transcript_id` and `timeline` from the inputs, never from the
response. -/
def analyzeRootCause (t : Transcript) (timeline : List TimelineEvent)
    (resp : SvcResponse) : Except PyErr AnalysisResult :=
  let result : Json :=
    match resp with
    | .noResponse => defaultRootCauseJson
    | .undecodable => defaultRootCauseJson
    | .decoded j => j
  buildAnalysisResult t.id timeline result

/-- `process_single_transcript` (src/main.py lines 49-57). The
`TimelineAgent` class is absent from the repository snapshot; modelled from
the spec, its `extract_timeline` "returns empty sequence on any
parse/service failure (never raises)", so stage 1 is embedded as the
timeline it returned. An empty timeline raises
`Exception("Failed to extract timeline")`; otherwise stage 2 runs. -/
def processSingleTranscript (t : Transcript) (timeline : List TimelineEvent)
    (resp : SvcResponse) : Except PyErr AnalysisResult :=
  if timeline = [] then .error (.exception "Failed to extract timeline")
  else analyzeRootCause t timeline resp

/-- Serialization of one `TimelineEvent` inside `model_dump_json`
(modelled from the spec, `src/models.py` being absent). -/
def encodeEvent (e : TimelineEvent) : Json :=
  Json.obj [("timestamp_order", Json.num e.timestamp_order),
            ("actor", Json.str e.actor),
            ("description", Json.str e.description)]

/-- `result.model_dump_json()` as written by `save_checkpoint`
(src/main.py line 41): one JSON object per checkpoint line, fields in
declaration order (modelled from the spec, `src/models.py` being absent). -/
def encodeResult (r : AnalysisResult) : Json :=
  Json.obj [("transcript_id", Json.str r.transcript_id),
            ("timeline", Json.arr (r.timeline.map encodeEvent)),
            ("root_cause", Json.str r.root_cause),
            ("root_cause_category", Json.str r.root_cause_category),
            ("sentiment", Json.str r.sentiment),
            ("summary", Json.str r.summary),
            ("actionable_insight",
              match r.actionable_insight with
              | some s => Json.str s
              | none => Json.null)]

/-- pydantic validation of one timeline entry during
`AnalysisResult(**data)` (aggregation pass 2, src/main.py line 152). -/
def decodeEvent (j : Json) : Option TimelineEvent :=
  match j with
  | .obj kvs =>
    match List.lookup "timestamp_order" kvs, List.lookup "actor" kvs,
          List.lookup "description" kvs with
    | some (.num n), some (.str a), some (.str d) =>
      some { timestamp_order := n, actor := a, description := d }
    | _, _, _ => none
  | _ => none

/-- pydantic validation of the timeline list during
`AnalysisResult(**data)`: every element must validate. -/
def decodeEvents : List Json → Option (List TimelineEvent)
  | [] => some []
  | j :: rest =>
    match decodeEvent j, decodeEvents rest with
    | some e, some es => some (e :: es)
    | _, _ => none

/-- `AnalysisResult(**data)` (aggregation pass 2, src/main.py line 152):
succeeds exactly when `data` is a JSON object carrying each required field
with the right type (`actionable_insight` may be absent, `null`, or a
string); extra keys are ignored. `none` embeds a raised validation error
(caught by pass 2's `except`, which skips the line). -/
def validateAnalysisResult (j : Json) : Option AnalysisResult :=
  match j with
  | .obj kvs =>
    match List.lookup "transcript_id" kvs, List.lookup "timeline" kvs,
          List.lookup "root_cause" kvs, List.lookup "root_cause_category" kvs,
          List.lookup "sentiment" kvs, List.lookup "summary" kvs with
    | some (.str tid), some (.arr tl), some (.str rc), some (.str rcc),
      some (.str snt), some (.str sm) =>
      match decodeEvents tl with
      | some evs =>
        match List.lookup "actionable_insight" kvs with
        | none => some { transcript_id := tid, timeline := evs, root_cause := rc,
                         root_cause_category := rcc, sentiment := snt, summary := sm,
                         actionable_insight := none }
        | some .null => some { transcript_id := tid, timeline := evs, root_cause := rc,
                               root_cause_category := rcc, sentiment := snt, summary := sm,
                               actionable_insight := none }
        | some (.str s) => some { transcript_id := tid, timeline := evs, root_cause := rc,
                                  root_cause_category := rcc, sentiment := snt, summary := sm,
                                  actionable_insight := some s }
        | some _ => none
      | none => none
    | _, _, _, _, _, _ => none
  | _ => none

/-- One line of the Checkpoint Log as seen by a reader: `none` when
`json.loads` fails on the line, `some j` when it decodes to `j`. -/
abbrev LogLine := Option Json

/-- Insertion into a Python `set`, modelled as a duplicate-free list kept in
insertion order (`ids.add(v)` in `load_processed_ids`, for hashable `v`). -/
def insertNew (l : List Json) (v : Json) : List Json :=
  if v ∈ l then l else l ++ [v]

/-- `load_processed_ids` (src/main.py lines 26-36): for each checkpoint
line, `json.loads` it and add `record.get("transcript_id")` to the set; a
line that fails to decode, is not a dict (so `.get` raises
`AttributeError`), or carries an unhashable id value (so `set.add` raises
`TypeError`) is skipped by the bare `except`. An absent key contributes
Python `None` (embedded as `Json.null`). -/
def loadStep (ids : List Json) (line : LogLine) : List Json :=
  match line with
  | some (Json.obj kvs) =>
    let v := (List.lookup "transcript_id" kvs).getD Json.null
    if v.hashable then insertNew ids v else ids
  | _ => ids

/-- The full `load_processed_ids` loop: fold `loadStep` over the log,
starting from the empty set. -/
def loadProcessedIds (log : List LogLine) : List Json :=
  log.foldl loadStep []

/-- The recoverable string ids of a Checkpoint Log: the members of
`load_processed_ids`'s set that are strings (only these can ever equal a
`Transcript.id`). -/
def recoverableIds (log : List LogLine) : List String :=
  (loadProcessedIds log).filterMap
    (fun v => match v with | Json.str s => some s | _ => none)

/-- Resume filtering in `main` (src/main.py line 88):
`to_process = [t for t in transcripts if t.id not in processed_ids]`. -/
def toProcess (transcripts : List Transcript) (log : List LogLine) : List Transcript :=
  transcripts.filter (fun t => Json.str t.id ∉ loadProcessedIds log)

/-- The two shared append-only logs. Checkpoint lines are stored as the
JSON value a reader would decode (`save_checkpoint` writes
`result.model_dump_json()`); failure entries are `(transcript_id, error)`
pairs as written by `log_failure`. -/
structure RunState where
  checkpointLog : List LogLine
  failureLog : List (String × String)
deriving DecidableEq

/-- `save_checkpoint` (src/main.py lines 38-41): append one serialized
`AnalysisResult` line to the Checkpoint Log. -/
def saveCheckpoint (r : AnalysisResult) (st : RunState) : RunState :=
  { st with checkpointLog := st.checkpointLog ++ [some (encodeResult r)] }

/-- `log_failure` (src/main.py lines 43-47): append one
`(transcript_id, error)` record to the Failure Log. -/
def logFailure (tid : String) (err : String) (st : RunState) : RunState :=
  { st with failureLog := st.failureLog ++ [(tid, err)] }

/-- `task_wrapper` (src/main.py lines 96-104): run the per-item pipeline;
on success checkpoint the result and return it, on any exception log the
failure and return `None`. Stage outcomes are supplied per item id:
`tla` is the timeline `TimelineAgent.extract_timeline` returns for the
item, `rla` the external response seen by `RootCauseAgent`. -/
def taskWrapper (tla : String → List TimelineEvent) (rla : String → SvcResponse)
    (t : Transcript) (st : RunState) : RunState × Option AnalysisResult :=
  match processSingleTranscript t (tla t.id) (rla t.id) with
  | .ok res => (saveCheckpoint res st, some res)
  | .error e => (logFailure t.id e.text st, none)

/-- The `ThreadPoolExecutor` dispatch loop of `main` (src/main.py lines
106-115): every item of `to_process` is submitted exactly once and runs
`task_wrapper` to completion. Completion order is immaterial to every
stated property (the logs' lengths and id multisets); the embedding fixes
submission order. -/
def runScheduler (tla : String → List TimelineEvent) (rla : String → SvcResponse)
    (items : List Transcript) (st : RunState) : RunState :=
  items.foldl (fun st t => (taskWrapper tla rla t st).1) st

/-- Whether an item's pipeline invocation ends in an exception (so
`task_wrapper` routes it to the Failure Log). -/
def itemFails (tla : String → List TimelineEvent) (rla : String → SvcResponse)
    (t : Transcript) : Bool :=
  match processSingleTranscript t (tla t.id) (rla t.id) with
  | .ok _ => false
  | .error _ => true

/-- The Failure Log entry an item produces when its pipeline raises. -/
def failureEntry (tla : String → List TimelineEvent) (rla : String → SvcResponse)
    (t : Transcript) : Option (String × String) :=
  match processSingleTranscript t (tla t.id) (rla t.id) with
  | .ok _ => none
  | .error e => some (t.id, e.text)

/-- The Checkpoint Log line an item produces when its pipeline succeeds. -/
def checkpointEntry (tla : String → List TimelineEvent) (rla : String → SvcResponse)
    (t : Transcript) : Option LogLine :=
  match processSingleTranscript t (tla t.id) (rla t.id) with
  | .ok r => some (some (encodeResult r))
  | .error _ => none

/-- Aggregation pass 1, one line (src/main.py lines 124-132): `json.loads`
the line, add `data.get("root_cause_category")` to the category set and
bump the running total. A line that fails to decode, is not a dict
(`.get` raises), or whose category value is unhashable (`set.add` raises
before the total is bumped) is skipped by the bare `except`. -/
def pass1Step (acc : List Json × Nat) (line : LogLine) : List Json × Nat :=
  match line with
  | some (Json.obj kvs) =>
    let c := (List.lookup "root_cause_category" kvs).getD Json.null
    if c.hashable then (insertNew acc.1 c, acc.2 + 1) else acc
  | _ => acc

/-- Aggregation pass 1 over the whole Checkpoint Log: the set of observed
category values and the total count `total_processed`. -/
def pass1 (log : List LogLine) : List Json × Nat :=
  log.foldl pass1Step ([], 0)

/-- Bump a counting dict: `d[k] = d.get(k, 0) + 1`. -/
def bump {α : Type} [DecidableEq α] : List (α × Nat) → α → List (α × Nat)
  | [], k => [(k, 1)]
  | (k', v) :: rest, k =>
    if k' = k then (k', v + 1) :: rest else (k', v) :: bump rest k

/-- Sum of a counting dict's values, `sum(d.values())`. -/
def sumVals {α : Type} (m : List (α × Nat)) : Nat := (m.map Prod.snd).sum

/-- State threaded through aggregation pass 2: the two counting dicts and
the first-40 sample list. -/
structure Pass2State where
  rc : List (Json × Nat)
  sent : List (String × Nat)
  samples : List String
deriving DecidableEq

/-- The category actually counted for a record in pass 2 (src/main.py
lines 155-157): the mapping's value when `root_cause_category` is a key of
`category_mapping`, the raw category string otherwise. Mapping values come
from the external service, so they are arbitrary JSON values. -/
def mappedCategory (mapping : List (String × Json)) (r : AnalysisResult) : Json :=
  match List.lookup r.root_cause_category mapping with
  | some v => v
  | none => Json.str r.root_cause_category

/-- The narrative sample line built for the first 40 records (src/main.py
lines 164-166); `jsonText` stands for the f-string rendering of the
(possibly non-string) mapped category. -/
def jsonText : Json → String
  | .null => "None"
  | .bool b => if b then "True" else "False"
  | .num n => toString n
  | .str s => s
  | .arr _ => "<list>"
  | .obj _ => "<dict>"

/-- Sample string for one record: `- [cat] root_cause. Sequence: a -> b -> c...` -/
def sampleLine (cat : Json) (r : AnalysisResult) : String :=
  "- [" ++ jsonText cat ++ "] " ++ r.root_cause ++ ". Sequence: " ++
    String.intercalate " -> " ((r.timeline.take 3).map TimelineEvent.description) ++ "..."

/-- Aggregation pass 2, one line (src/main.py lines 146-169): decode the
line, validate it as an `AnalysisResult`, apply the category mapping, bump
both counting dicts and possibly extend the sample. Any raised exception —
decode failure, pydantic validation failure, or hashing an unhashable
mapped category at `root_cause_counts.get(cat, 0)` (which happens before
either dict is mutated) — skips the line, leaving the state unchanged. -/
def pass2Step (mapping : List (String × Json)) (st : Pass2State) (line : LogLine) :
    Pass2State :=
  match line with
  | some j =>
    match validateAnalysisResult j with
    | some r =>
      let cat := mappedCategory mapping r
      if cat.hashable then
        { rc := bump st.rc cat,
          sent := bump st.sent r.sentiment,
          samples :=
            if st.samples.length < 40 then st.samples ++ [sampleLine cat r]
            else st.samples }
      else st
    | none => st
  | none => st

/-- Aggregation pass 2 over the whole Checkpoint Log. -/
def pass2 (mapping : List (String × Json)) (log : List LogLine) : Pass2State :=
  log.foldl (pass2Step mapping) { rc := [], sent := [], samples := [] }

/-- Whether pass 2 processes (rather than skips) a line, given the
mapping. -/
def pass2Counts (mapping : List (String × Json)) (line : LogLine) : Bool :=
  match line with
  | some j =>
    match validateAnalysisResult j with
    | some r => (mappedCategory mapping r).hashable
    | none => false
  | none => false

/-- Insert/overwrite one key of a Python dict kept as an insertion-ordered
association list: an existing key keeps its position and gets the new
value, a new key is appended. -/
def dictPut (m : List (String × Json)) (k : String) (v : Json) : List (String × Json) :=
  match m with
  | [] => [(k, v)]
  | (k', v') :: rest =>
    if k' = k then (k', v) :: rest else (k', v') :: dictPut rest k v

/-- `mapping[c] = c` for every category of a batch — the identity fallback
taken by `normalize_categories` when a batch's response is missing or fails
to decode (src/agents.py lines 109-116). -/
def identityFallback (m : List (String × Json)) (batch : List String) :
    List (String × Json) :=
  batch.foldl (fun m c => dictPut m c (Json.str c)) m

/-- `mapping.update(batch_mapping)` (src/agents.py line 108): merge the
decoded response into the accumulated dict, later keys overriding. -/
def dictMerge (m : List (String × Json)) (upd : List (String × Json)) :
    List (String × Json) :=
  upd.foldl (fun m kv => dictPut m kv.1 kv.2) m

/-- One batch of `NormalizationAgent.normalize_categories` (src/agents.py
lines 83-116): a missing response or a `JSONDecodeError` fall back to the
identity mapping for the batch; a response decoding to a JSON object is
merged verbatim via `dict.update`; a response decoding to any other JSON
value makes `dict.update` raise (`TypeError`/`ValueError`, neither caught
by the `except JSONDecodeError` handler). -/
def normStep (m : List (String × Json)) (batch : List String) (resp : SvcResponse) :
    Except PyErr (List (String × Json)) :=
  match resp with
  | .noResponse => .ok (identityFallback m batch)
  | .undecodable => .ok (identityFallback m batch)
  | .decoded (Json.obj kvs) => .ok (dictMerge m kvs)
  | .decoded _ => .error .typeError

/-- The batching loop of `normalize_categories`
(`for i in range(0, len(categories), batch_size)` with `batch_size = 50`):
process 50 categories at a time, one external call per batch. `responses`
supplies the external response of each batch by batch index. -/
def normGo (responses : Nat → SvcResponse) :
    List (String × Json) → List String → Nat → Except PyErr (List (String × Json))
  | m, [], _ => .ok m
  | m, c :: rest, i =>
    match normStep m ((c :: rest).take 50) (responses i) with
    | .ok m' => normGo responses m' ((c :: rest).drop 50) (i + 1)
    | .error e => .error e
termination_by m cs i => cs.length
decreasing_by
  simp [List.length_drop]
  omega

/-- `NormalizationAgent.normalize_categories` (src/agents.py lines 74-118):
empty input returns the empty mapping; otherwise the batched loop builds
the mapping from the external responses. -/
def normalizeCategories (categories : List String) (responses : Nat → SvcResponse) :
    Except PyErr (List (String × Json)) :=
  if categories = [] then .ok [] else normGo responses [] categories 0

/-- The keys of a mapping, `mapping.keys()`. -/
def dictKeys (m : List (String × Json)) : List String := m.map Prod.fst

/-- `AggregationAgent.aggregate_results` (src/agents.py lines 123-164):
start from the default `output` of three empty lists; a decoded response
replaces it wholesale; build the report with `total_transcripts` and the
two distributions taken verbatim from the inputs and the three narrative
fields read from `output` with `output.get(key, [])`. The sample summaries
only feed the prompt (`sample_summaries[:30]`), so they cannot influence
the result. -/
def aggregateResults (rcCounts : List (Json × Nat)) (sentCounts : List (String × Nat))
    (sampleSummaries : List String) (total : Nat) (resp : SvcResponse) :
    Except PyErr AggregateReport :=
  let output : Json :=
    match resp with
    | .decoded j => j
    | _ => Json.obj [("common_timeline_patterns", Json.arr []),
                     ("key_findings", Json.arr []),
                     ("recommendations", Json.arr [])]
  match getStrListD output "common_timeline_patterns" with
  | .error e => .error e
  | .ok ps =>
    match getStrListD output "key_findings" with
    | .error e => .error e
    | .ok ks =>
      match getStrListD output "recommendations" with
      | .error e => .error e
      | .ok recs =>
        .ok { total_transcripts := total, root_cause_distribution := rcCounts,
              sentiment_distribution := sentCounts, common_timeline_patterns := ps,
              key_findings := ks, recommendations := recs }

/-- Outcome of the setup-and-dispatch slice of `main` (src/main.py lines
59-115 and 203-204): the final shared-log state, the process exit status,
and whether a setup failure message was printed. The script calls `main()`
at top level and `main` handles a client-construction failure by printing
and returning (line 72-74), so the interpreter always exits with status 0. -/
def mainRun (initFails : Bool) (transcripts : List Transcript)
    (tla : String → List TimelineEvent) (rla : String → SvcResponse)
    (st : RunState) : RunState × Nat × Bool :=
  if initFails then (st, 0, true)
  else
    (runScheduler tla rla (toProcess transcripts st.checkpointLog) st, 0, false)

/-! ### Helper lemmas -/

theorem mem_insertNew (l : List Json) (v : Json) : v ∈ insertNew l v := by
  unfold insertNew
  split
  · assumption
  · simp

theorem mem_recoverableIds (log : List LogLine) (s : String) :
    s ∈ recoverableIds log ↔ Json.str s ∈ loadProcessedIds log := by
  simp only [recoverableIds, List.mem_filterMap]
  constructor
  · rintro ⟨v, hv, hf⟩
    cases v <;> simp_all
  · intro h
    exact ⟨Json.str s, h, rfl⟩

/-! ### C3, C6, C7: fail-soft contracts of the agents -/

/-- C3: for every transcript and timeline, when the external response is
missing or not decodable as JSON, `analyze_root_cause` returns exactly the
documented default record (`root_cause="Unknown"`, category `"Other"`,
sentiment `"Neutral"`, summary `"Analysis failed"`, no actionable insight).
But the claim's "never raises" part fails: a response that decodes to a
JSON non-object — here the array `[1, 2]` — makes `result.get` raise
`AttributeError`, escaping the `except json.JSONDecodeError` handler. -/
theorem C3_analyze_root_cause_default_and_raise :
    (∀ (t : Transcript) (tl : List TimelineEvent),
      analyzeRootCause t tl SvcResponse.noResponse =
        Except.ok { transcript_id := t.id, timeline := tl, root_cause := "Unknown",
                    root_cause_category := "Other", sentiment := "Neutral",
                    summary := "Analysis failed", actionable_insight := none } ∧
      analyzeRootCause t tl SvcResponse.undecodable =
        Except.ok { transcript_id := t.id, timeline := tl, root_cause := "Unknown",
                    root_cause_category := "Other", sentiment := "Neutral",
                    summary := "Analysis failed", actionable_insight := none }) ∧
    analyzeRootCause { id := "t1", content := "c" }
        [{ timestamp_order := 1, actor := "Customer", description := "called in" }]
        (SvcResponse.decoded (Json.arr [Json.num 1, Json.num 2])) =
      Except.error PyErr.attributeError :=
  ⟨fun t tl => ⟨rfl, rfl⟩, rfl⟩

/-- C6: an empty stage-1 timeline always fails the item with
`Exception("Failed to extract timeline")` — but the "only if" direction of
the claim fails: with a non-empty timeline, a stage-2 response decoding to
a JSON non-object makes `process_single_transcript` raise as well, so a
stage-2 outcome can fail the item. -/
theorem C6_pipeline_failure_condition :
    (∀ (t : Transcript) (resp : SvcResponse),
      processSingleTranscript t [] resp =
        Except.error (PyErr.exception "Failed to extract timeline")) ∧
    processSingleTranscript { id := "t2", content := "c" }
        [{ timestamp_order := 1, actor := "Agent", description := "dispatched" }]
        (SvcResponse.decoded (Json.arr [])) =
      Except.error PyErr.attributeError :=
  ⟨fun t resp => rfl, rfl⟩

/-- C7: on a missing or undecodable external response,
`aggregate_results` returns the empty-but-valid report — the three
narrative fields are empty and `total_transcripts` and both distributions
are the inputs passed in. But the claim's "never raises" part fails: a
response that decodes to a JSON non-object — here the array `[]` — makes
`output.get` raise `AttributeError`. -/
theorem C7_aggregate_results_fallback_and_raise :
    (∀ (rc : List (Json × Nat)) (snt : List (String × Nat))
       (smp : List String) (tot : Nat),
      aggregateResults rc snt smp tot SvcResponse.noResponse =
        Except.ok { total_transcripts := tot, root_cause_distribution := rc,
                    sentiment_distribution := snt, common_timeline_patterns := [],
                    key_findings := [], recommendations := [] } ∧
      aggregateResults rc snt smp tot SvcResponse.undecodable =
        Except.ok { total_transcripts := tot, root_cause_distribution := rc,
                    sentiment_distribution := snt, common_timeline_patterns := [],
                    key_findings := [], recommendations := [] }) ∧
    aggregateResults [] [] [] 0 (SvcResponse.decoded (Json.arr [])) =
      Except.error PyErr.attributeError :=
  ⟨fun rc snt smp tot => ⟨rfl, rfl⟩, rfl⟩

/-! ### C8: setup failure -/

/-- C8 counterexample: when constructing the external-service client
fails, `main` prints and returns, and the script then exits normally — the
process exit status is 0, not the non-zero outcome the claim states. -/
theorem C8_setup_failure_zero_exit_cex :
    (mainRun true [{ id := "a", content := "x" }] (fun _ => [])
        (fun _ => SvcResponse.noResponse) { checkpointLog := [], failureLog := [] }).2.1
      = 0 := rfl

/-- C8 (amended): on client-construction failure the run aborts before any
work is dispatched — the shared logs are untouched and no item is
processed — and the failure is printed for the operator, but the process
exit status is 0. -/
theorem C8_setup_failure_aborts_run (transcripts : List Transcript)
    (tla : String → List TimelineEvent) (rla : String → SvcResponse) (st : RunState) :
    mainRun true transcripts tla rla st = (st, 0, true) := rfl

/-! ### C10: resume key and timeline come from the inputs -/

theorem buildAnalysisResult_ok_fields (tid : String) (tl : List TimelineEvent)
    (result : Json) (r : AnalysisResult)
    (h : buildAnalysisResult tid tl result = Except.ok r) :
    r.transcript_id = tid ∧ r.timeline = tl := by
  unfold buildAnalysisResult at h
  rcases h1 : getStrD result "root_cause" "Unknown" with e | rc
  · rw [h1] at h
    exact absurd h (by simp)
  rw [h1] at h
  dsimp only at h
  rcases h2 : getStrD result "root_cause_category" "Other" with e | rcc
  · rw [h2] at h
    exact absurd h (by simp)
  rw [h2] at h
  dsimp only at h
  rcases h3 : getStrD result "sentiment" "Neutral" with e | snt
  · rw [h3] at h
    exact absurd h (by simp)
  rw [h3] at h
  dsimp only at h
  rcases h4 : getStrD result "summary" "No summary" with e | sm
  · rw [h4] at h
    exact absurd h (by simp)
  rw [h4] at h
  dsimp only at h
  rcases h5 : getOptStr result "actionable_insight" with e | ai
  · rw [h5] at h
    exact absurd h (by simp)
  rw [h5] at h
  dsimp only at h
  rw [Except.ok.injEq] at h
  subst h
  exact ⟨rfl, rfl⟩

/-- C10: whenever `analyze_root_cause` returns a result, its
`transcript_id` is the input transcript's id and its `timeline` is the
stage-1 timeline it was given, whatever the external service returned. -/
theorem C10_result_keys_from_inputs (t : Transcript) (tl : List TimelineEvent)
    (resp : SvcResponse) (r : AnalysisResult) (hne : tl ≠ [])
    (h : analyzeRootCause t tl resp = Except.ok r) :
    r.transcript_id = t.id ∧ r.timeline = tl := by
  unfold analyzeRootCause at h
  exact buildAnalysisResult_ok_fields t.id tl _ r h

/-- Witness for C10 at a concrete input. -/
theorem C10_result_keys_witness :
    (([{ timestamp_order := 1, actor := "Customer", description := "called in" }] :
        List TimelineEvent) ≠ []) ∧
    analyzeRootCause { id := "tw", content := "c" }
        [{ timestamp_order := 1, actor := "Customer", description := "called in" }]
        SvcResponse.noResponse =
      Except.ok { transcript_id := "tw",
                  timeline := [{ timestamp_order := 1, actor := "Customer",
                                 description := "called in" }],
                  root_cause := "Unknown", root_cause_category := "Other",
                  sentiment := "Neutral", summary := "Analysis failed",
                  actionable_insight := none } ∧
    (AnalysisResult.transcript_id
        { transcript_id := "tw",
          timeline := [{ timestamp_order := 1, actor := "Customer",
                         description := "called in" }],
          root_cause := "Unknown", root_cause_category := "Other",
          sentiment := "Neutral", summary := "Analysis failed",
          actionable_insight := none } = "tw" ∧
     AnalysisResult.timeline
        { transcript_id := "tw",
          timeline := [{ timestamp_order := 1, actor := "Customer",
                         description := "called in" }],
          root_cause := "Unknown", root_cause_category := "Other",
          sentiment := "Neutral", summary := "Analysis failed",
          actionable_insight := none } =
       [{ timestamp_order := 1, actor := "Customer", description := "called in" }]) :=
  ⟨by simp, rfl,
    C10_result_keys_from_inputs { id := "tw", content := "c" }
      [{ timestamp_order := 1, actor := "Customer", description := "called in" }]
      SvcResponse.noResponse
      { transcript_id := "tw",
        timeline := [{ timestamp_order := 1, actor := "Customer",
                       description := "called in" }],
        root_cause := "Unknown", root_cause_category := "Other",
        sentiment := "Neutral", summary := "Analysis failed",
        actionable_insight := none }
      (by simp) rfl⟩

/-! ### C4: idempotent resume filtering -/

/-- C4: the ids selected for processing are exactly the input ids minus
the ids recoverable from the Checkpoint Log; and an id just checkpointed
via `save_checkpoint` is always recoverable, so a rerun on the same input
with the same log never reprocesses it. -/
theorem C4_resume_filtering (transcripts : List Transcript) (log : List LogLine)
    (r : AnalysisResult) :
    ((toProcess transcripts log).map Transcript.id).toFinset =
      (transcripts.map Transcript.id).toFinset \ (recoverableIds log).toFinset ∧
    r.transcript_id ∈ recoverableIds (log ++ [some (encodeResult r)]) := by
  constructor
  · ext x
    simp only [List.mem_toFinset, Finset.mem_sdiff, List.mem_map, toProcess,
      List.mem_filter, mem_recoverableIds, decide_not, Bool.not_eq_true',
      decide_eq_false_iff_not]
    constructor
    · rintro ⟨t, ⟨ht, hp⟩, rfl⟩
      exact ⟨⟨t, ht, rfl⟩, hp⟩
    · rintro ⟨⟨t, ht, rfl⟩, hp⟩
      exact ⟨t, ⟨ht, hp⟩, rfl⟩
  · rw [mem_recoverableIds]
    unfold loadProcessedIds
    rw [List.foldl_append]
    show Json.str r.transcript_id ∈ loadStep (List.foldl loadStep [] log) (some (encodeResult r))
    unfold loadStep encodeResult
    simp only [List.lookup]
    norm_num
    exact mem_insertNew _ _

/-! ### C1: aggregation conservation -/

theorem lookup_mem {α β : Type} [BEq α] [LawfulBEq α] (l : List (α × β)) (k : α) (v : β)
    (h : List.lookup k l = some v) : (k, v) ∈ l := by
  induction l with
  | nil => simp [List.lookup] at h
  | cons p rest ih =>
    obtain ⟨k', v'⟩ := p
    simp only [List.lookup] at h
    cases hk : (k == k') with
    | true =>
      rw [hk] at h
      simp only [Option.some.injEq] at h
      subst h
      simp [eq_of_beq hk]
    | false =>
      rw [hk] at h
      exact List.mem_cons_of_mem _ (ih h)

theorem sumVals_bump {α : Type} [DecidableEq α] (m : List (α × Nat)) (k : α) :
    sumVals (bump m k) = sumVals m + 1 := by
  induction m with
  | nil => simp [bump, sumVals]
  | cons p rest ih =>
    obtain ⟨k', v⟩ := p
    unfold bump
    split
    · simp [sumVals]
      omega
    · simp only [sumVals, List.map_cons, List.sum_cons] at ih ⊢
      omega

theorem decodeEvent_encodeEvent (e : TimelineEvent) :
    decodeEvent (encodeEvent e) = some e := rfl

theorem decodeEvents_encode (tl : List TimelineEvent) :
    decodeEvents (tl.map encodeEvent) = some tl := by
  induction tl with
  | nil => rfl
  | cons e rest ih => simp [decodeEvents, decodeEvent_encodeEvent, ih]

theorem validate_encodeResult (r : AnalysisResult) :
    validateAnalysisResult (encodeResult r) = some r := by
  obtain ⟨tid, tl, rc, rcc, snt, sm, ai⟩ := r
  have htl := decodeEvents_encode tl
  cases ai <;>
    simp +decide [validateAnalysisResult, encodeResult, List.lookup, htl]

theorem pass2Counts_encode (mapping : List (String × Json))
    (hm : ∀ p ∈ mapping, ∃ s, p.2 = Json.str s) (r : AnalysisResult) :
    pass2Counts mapping (some (encodeResult r)) = true := by
  unfold pass2Counts
  dsimp only
  rw [validate_encodeResult]
  dsimp only
  unfold mappedCategory
  cases hl : List.lookup r.root_cause_category mapping with
  | none => rfl
  | some v =>
    obtain ⟨s, hs⟩ := hm (r.root_cause_category, v) (lookup_mem _ _ _ hl)
    simp only at hs
    rw [hs]
    rfl

theorem pass1_encoded (rs : List AnalysisResult) :
    ∀ acc : List Json × Nat,
      ((rs.map (fun r => (some (encodeResult r) : LogLine))).foldl pass1Step acc).2 =
        acc.2 + rs.length := by
  induction rs with
  | nil => simp
  | cons r rest ih =>
    intro acc
    rw [List.map_cons, List.foldl_cons, ih]
    have hstep : pass1Step acc (some (encodeResult r)) =
        (insertNew acc.1 (Json.str r.root_cause_category), acc.2 + 1) := rfl
    rw [hstep]
    simp only [List.length_cons]
    omega

theorem pass2_foldl_sums (mapping : List (String × Json)) (log : List LogLine) :
    ∀ st : Pass2State,
      sumVals ((log.foldl (pass2Step mapping) st).rc) =
          sumVals st.rc + log.countP (pass2Counts mapping) ∧
      sumVals ((log.foldl (pass2Step mapping) st).sent) =
          sumVals st.sent + log.countP (pass2Counts mapping) := by
  induction log with
  | nil => simp
  | cons line rest ih =>
    intro st
    rw [List.foldl_cons, List.countP_cons]
    obtain ⟨ih1, ih2⟩ := ih (pass2Step mapping st line)
    rw [ih1, ih2]
    cases line with
    | none => simp [pass2Step, pass2Counts]
    | some j =>
      cases hv : validateAnalysisResult j with
      | none => simp [pass2Step, pass2Counts, hv]
      | some r =>
        cases hh : (mappedCategory mapping r).hashable with
        | false => simp [pass2Step, pass2Counts, hv, hh]
        | true =>
          have hstep : pass2Step mapping st (some j) =
              { rc := bump st.rc (mappedCategory mapping r),
                sent := bump st.sent r.sentiment,
                samples :=
                  if st.samples.length < 40 then
                    st.samples ++ [sampleLine (mappedCategory mapping r) r]
                  else st.samples } := by
            unfold pass2Step
            dsimp only
            rw [hv]
            simp [hh]
          have hcnt : pass2Counts mapping (some j) = true := by
            unfold pass2Counts
            dsimp only
            rw [hv]
            exact hh
          rw [hstep, hcnt]
          simp [sumVals_bump]
          omega

/-- C1 counterexample: a Checkpoint Log line that decodes to a JSON object
but is not a valid `AnalysisResult` record is counted by pass 1 (which
only reads `root_cause_category` out of the decoded dict) yet skipped by
pass 2 (where `AnalysisResult(**data)` raises), so both distribution sums
are 0 while the pass-1 total `T` is 1. -/
theorem C1_conservation_cex :
    (pass1 [some (Json.obj [("root_cause_category", Json.str "X")])]).2 = 1 ∧
    sumVals (pass2 [] [some (Json.obj [("root_cause_category", Json.str "X")])]).rc = 0 ∧
    sumVals (pass2 [] [some (Json.obj [("root_cause_category", Json.str "X")])]).sent = 0 ∧
    sumVals (pass2 [] [some (Json.obj [("root_cause_category", Json.str "X")])]).rc ≠
      (pass1 [some (Json.obj [("root_cause_category", Json.str "X")])]).2 := by
  refine ⟨rfl, rfl, rfl, ?_⟩
  decide

/-- C1 (amended): for every Checkpoint Log whose lines are serialized
`AnalysisResult` records — i.e. any log written by `save_checkpoint` — and
any category mapping with string (hashable) values, the pass-1 total `T`
equals the number of records and both pass-2 distributions sum to that
same `T`. -/
theorem C1_conservation_for_record_logs (rs : List AnalysisResult)
    (mapping : List (String × Json))
    (hm : ∀ p ∈ mapping, ∃ s, p.2 = Json.str s) :
    (pass1 (rs.map (fun r => (some (encodeResult r) : LogLine)))).2 = rs.length ∧
    sumVals (pass2 mapping (rs.map (fun r => (some (encodeResult r) : LogLine)))).rc =
      rs.length ∧
    sumVals (pass2 mapping (rs.map (fun r => (some (encodeResult r) : LogLine)))).sent =
      rs.length := by
  have hcnt : (rs.map (fun r => (some (encodeResult r) : LogLine))).countP
      (pass2Counts mapping) = rs.length := by
    rw [List.countP_map]
    rw [List.countP_eq_length]
    intro r _
    exact pass2Counts_encode mapping hm r
  obtain ⟨h1, h2⟩ := pass2_foldl_sums mapping
    (rs.map (fun r => (some (encodeResult r) : LogLine)))
    { rc := [], sent := [], samples := [] }
  refine ⟨?_, ?_, ?_⟩
  · exact (pass1_encoded rs ([], 0)).trans (by simp)
  · rw [pass2, h1, hcnt]
    simp [sumVals]
  · rw [pass2, h2, hcnt]
    simp [sumVals]

/-- Witness for the amended C1 at a concrete record list and mapping. -/
theorem C1_conservation_witness :
    (∀ p ∈ [("ETA", Json.str "Provider Operations - ETA Exceeded")],
        ∃ s, (Prod.snd p) = Json.str s) ∧
    (pass1 ([{ transcript_id := "a", timeline := [], root_cause := "late",
               root_cause_category := "ETA", sentiment := "Negative",
               summary := "s", actionable_insight := none }].map
        (fun r => (some (encodeResult r) : LogLine)))).2 = 1 ∧
    sumVals (pass2 [("ETA", Json.str "Provider Operations - ETA Exceeded")]
        ([{ transcript_id := "a", timeline := [], root_cause := "late",
            root_cause_category := "ETA", sentiment := "Negative",
            summary := "s", actionable_insight := none }].map
          (fun r => (some (encodeResult r) : LogLine)))).rc = 1 ∧
    sumVals (pass2 [("ETA", Json.str "Provider Operations - ETA Exceeded")]
        ([{ transcript_id := "a", timeline := [], root_cause := "late",
            root_cause_category := "ETA", sentiment := "Negative",
            summary := "s", actionable_insight := none }].map
          (fun r => (some (encodeResult r) : LogLine)))).sent = 1 :=
  ⟨by
    rintro p hp
    rw [List.mem_singleton] at hp
    subst hp
    exact ⟨"Provider Operations - ETA Exceeded", rfl⟩,
    C1_conservation_for_record_logs
      [{ transcript_id := "a", timeline := [], root_cause := "late",
         root_cause_category := "ETA", sentiment := "Negative",
         summary := "s", actionable_insight := none }]
      [("ETA", Json.str "Provider Operations - ETA Exceeded")]
      (by
        rintro p hp
        rw [List.mem_singleton] at hp
        subst hp
        exact ⟨"Provider Operations - ETA Exceeded", rfl⟩)⟩

/-! ### C2: normalization totality -/

theorem dictKeys_dictPut (m : List (String × Json)) (k : String) (v : Json) :
    (dictKeys (dictPut m k v)).toFinset = insert k (dictKeys m).toFinset := by
  induction m with
  | nil => simp [dictPut, dictKeys]
  | cons p rest ih =>
    obtain ⟨k', v'⟩ := p
    unfold dictPut
    split
    · rename_i hk
      subst hk
      simp [dictKeys]
    · simp only [dictKeys, List.map_cons] at ih ⊢
      rw [List.toFinset_cons, List.toFinset_cons, ih, Finset.Insert.comm]

theorem dictPut_values (m : List (String × Json)) (k : String) (v : Json) :
    ∀ p ∈ dictPut m k v, p ∈ m ∨ p = (k, v) := by
  induction m with
  | nil => simp [dictPut]
  | cons q rest ih =>
    obtain ⟨k', v'⟩ := q
    unfold dictPut
    split
    · rename_i hk
      intro p hp
      rcases List.mem_cons.1 hp with h | h
      · right
        subst hk
        rw [h]
      · left
        exact List.mem_cons_of_mem _ h
    · intro p hp
      rcases List.mem_cons.1 hp with h | h
      · left
        rw [h]
        exact List.mem_cons_self _ _
      · rcases ih p h with h' | h'
        · exact Or.inl (List.mem_cons_of_mem _ h')
        · exact Or.inr h'

theorem identityFallback_values (cs : List String) :
    ∀ m, (∀ p ∈ m, p.2 = Json.str p.1) →
      ∀ p ∈ identityFallback m cs, p.2 = Json.str p.1 := by
  induction cs with
  | nil => intro m hm; exact hm
  | cons c rest ih =>
    intro m hm p hp
    refine ih (dictPut m c (Json.str c)) ?_ p hp
    intro q hq
    rcases dictPut_values m c (Json.str c) q hq with h | h
    · exact hm q h
    · rw [h]

theorem identityFallback_keys (cs : List String) :
    ∀ m, (dictKeys (identityFallback m cs)).toFinset =
      (dictKeys m).toFinset ∪ cs.toFinset := by
  induction cs with
  | nil => intro m; simp [identityFallback]
  | cons c rest ih =>
    intro m
    show (dictKeys (identityFallback (dictPut m c (Json.str c)) rest)).toFinset = _
    rw [ih, dictKeys_dictPut, List.toFinset_cons, Finset.insert_union,
      Finset.union_insert]

theorem normGo_no_decode (responses : Nat → SvcResponse)
    (h : ∀ i j, responses i ≠ SvcResponse.decoded j) :
    ∀ n (cs : List String), cs.length ≤ n → ∀ (m : List (String × Json)) (i : Nat),
      normGo responses m cs i = Except.ok (identityFallback m cs) := by
  intro n
  induction n with
  | zero =>
    intro cs hcs m i
    have hnil : cs = [] := List.eq_nil_of_length_eq_zero (Nat.le_zero.mp hcs)
    subst hnil
    rw [normGo]
    rfl
  | succ n ih =>
    intro cs hcs m i
    match cs with
    | [] =>
      rw [normGo]
      rfl
    | c :: rest =>
      rw [normGo]
      have hstep : normStep m ((c :: rest).take 50) (responses i) =
          Except.ok (identityFallback m ((c :: rest).take 50)) := by
        cases hresp : responses i with
        | noResponse => rfl
        | undecodable => rfl
        | decoded j => exact absurd hresp (h i j)
      rw [hstep]
      have hlen : ((c :: rest).drop 50).length ≤ n := by
        simp only [List.length_cons] at hcs
        simp only [List.length_drop, List.length_cons]
        omega
      dsimp only
      rw [ih ((c :: rest).drop 50) hlen _ (i + 1)]
      unfold identityFallback
      rw [← List.foldl_append, List.take_append_drop]

/-- C2 counterexample: with input category list `["A"]` and an external
response that decodes to the JSON object mapping `"B"` to `"C"`, the
decoded object is merged verbatim (`mapping.update(batch_mapping)`), so
the returned mapping's key set is `set("B")`, not `set("A")`: the input
category `"A"` is dropped and the foreign key `"B"` appears. -/
theorem C2_totality_cex :
    normalizeCategories ["A"]
        (fun _ => SvcResponse.decoded (Json.obj [("B", Json.str "C")])) =
      Except.ok [("B", Json.str "C")] ∧
    "A" ∉ dictKeys [("B", Json.str "C")] ∧
    "B" ∈ dictKeys [("B", Json.str "C")] := by
  refine ⟨?_, by decide, by decide⟩
  unfold normalizeCategories
  rw [if_neg (by decide)]
  rw [normGo]
  rw [show normStep [] (List.take 50 ["A"])
      (SvcResponse.decoded (Json.obj [("B", Json.str "C")])) =
      Except.ok [("B", Json.str "C")] from rfl]
  dsimp only
  rw [show (List.drop 50 ["A"] : List String) = [] from rfl]
  rw [normGo]

/-- C2 (amended): the returned mapping's key set equals the input category
set whenever every batch's external response is missing or fails to decode
as JSON — the per-batch identity fallback then covers every category, each
mapped to itself. When a batch's response decodes to a JSON object, the
mapping instead takes exactly the response's keys for that batch, so input
categories can be dropped and foreign keys introduced (categories absent
from the mapping are only handled as identity later, at lookup time in
`main`'s pass 2). -/
theorem C2_totality_identity_fallback (categories : List String)
    (responses : Nat → SvcResponse)
    (h : ∀ i j, responses i ≠ SvcResponse.decoded j) :
    ∃ m, normalizeCategories categories responses = Except.ok m ∧
      (dictKeys m).toFinset = categories.toFinset ∧
      ∀ p ∈ m, p.2 = Json.str p.1 := by
  by_cases hc : categories = []
  · subst hc
    refine ⟨[], ?_, by simp [dictKeys], by simp⟩
    unfold normalizeCategories
    rw [if_pos rfl]
  · refine ⟨identityFallback [] categories, ?_, ?_, ?_⟩
    · unfold normalizeCategories
      rw [if_neg hc]
      exact normGo_no_decode responses h categories.length categories le_rfl [] 0
    · rw [identityFallback_keys]
      simp [dictKeys]
    · exact identityFallback_values categories [] (by simp)

/-- Witness for the amended C2 at a concrete input. -/
theorem C2_totality_witness :
    (∀ (i : Nat) (j : Json),
        (fun _ => SvcResponse.noResponse) i ≠ SvcResponse.decoded j) ∧
    ∃ m, normalizeCategories ["ETA Exceeded", "Eta exceeded"]
        (fun _ => SvcResponse.noResponse) = Except.ok m ∧
      (dictKeys m).toFinset =
        (["ETA Exceeded", "Eta exceeded"] : List String).toFinset ∧
      ∀ p ∈ m, p.2 = Json.str p.1 :=
  ⟨fun i j h => SvcResponse.noConfusion h,
    C2_totality_identity_fallback ["ETA Exceeded", "Eta exceeded"] _
      (fun i j h => SvcResponse.noConfusion h)⟩

/-! ### C5: failure isolation in the scheduler -/

theorem runScheduler_logs (tla : String → List TimelineEvent)
    (rla : String → SvcResponse) (items : List Transcript) :
    ∀ st : RunState,
      (runScheduler tla rla items st).failureLog =
        st.failureLog ++ items.filterMap (failureEntry tla rla) ∧
      (runScheduler tla rla items st).checkpointLog =
        st.checkpointLog ++ items.filterMap (checkpointEntry tla rla) := by
  induction items with
  | nil => simp [runScheduler]
  | cons t rest ih =>
    intro st
    unfold runScheduler at ih ⊢
    rw [List.foldl_cons]
    obtain ⟨ih1, ih2⟩ := ih ((taskWrapper tla rla t st).1)
    rw [List.filterMap_cons, List.filterMap_cons]
    cases hp : processSingleTranscript t (tla t.id) (rla t.id) with
    | ok r =>
      have hw : (taskWrapper tla rla t st).1 = saveCheckpoint r st := by
        unfold taskWrapper
        rw [hp]
      have hf : failureEntry tla rla t = none := by
        unfold failureEntry
        rw [hp]
      have hc : checkpointEntry tla rla t = some (some (encodeResult r)) := by
        unfold checkpointEntry
        rw [hp]
      rw [hw] at ih1 ih2 ⊢
      rw [hf, hc]
      constructor
      · rw [ih1]
        simp [saveCheckpoint]
      · rw [ih2]
        simp [saveCheckpoint]
    | error e =>
      have hw : (taskWrapper tla rla t st).1 = logFailure t.id e.text st := by
        unfold taskWrapper
        rw [hp]
      have hf : failureEntry tla rla t = some (t.id, e.text) := by
        unfold failureEntry
        rw [hp]
      have hc : checkpointEntry tla rla t = none := by
        unfold checkpointEntry
        rw [hp]
      rw [hw] at ih1 ih2 ⊢
      rw [hf, hc]
      constructor
      · rw [ih1]
        simp [logFailure]
      · rw [ih2]
        simp [logFailure]

theorem filterMap_eq_map_filter {α β : Type} (f : α → Option β) (p : α → Bool)
    (g : α → β) (l : List α)
    (h : ∀ a ∈ l, f a = if p a then some (g a) else none) :
    l.filterMap f = (l.filter p).map g := by
  induction l with
  | nil => rfl
  | cons a rest ih =>
    rw [List.filterMap_cons, List.filter_cons]
    have ha := h a (List.mem_cons_self a rest)
    have hr := ih (fun b hb => h b (List.mem_cons_of_mem a hb))
    cases hpa : p a with
    | true =>
      rw [hpa] at ha
      simp only [if_pos] at ha
      simp [ha, hr]
    | false =>
      rw [hpa] at ha
      simp only [if_neg, Bool.false_eq_true, not_false_eq_true] at ha
      simp [ha, hr]

/-- C5: for a batch in which exactly one item's stage-1 timeline
extraction comes back empty and every other item's pipeline succeeds, the
scheduler appends exactly one Failure Log entry — carrying the failing
item's id and the timeline-extraction error text — and N−1 Checkpoint Log
lines: every item yields exactly one outcome and the single failure never
blocks the others. -/
theorem C5_failure_isolation (items : List Transcript)
    (tla : String → List TimelineEvent) (rla : String → SvcResponse) (st : RunState)
    (hone : items.countP (fun t => decide (tla t.id = [])) = 1)
    (hok : ∀ t ∈ items, tla t.id ≠ [] →
      (analyzeRootCause t (tla t.id) (rla t.id)).isOk = true) :
    (runScheduler tla rla items st).failureLog =
      st.failureLog ++ (items.filter (fun t => decide (tla t.id = []))).map
        (fun t => (t.id, "Failed to extract timeline")) ∧
    (runScheduler tla rla items st).failureLog.length = st.failureLog.length + 1 ∧
    (runScheduler tla rla items st).checkpointLog.length =
      st.checkpointLog.length + (items.length - 1) := by
  obtain ⟨h1, h2⟩ := runScheduler_logs tla rla items st
  have hfail : ∀ t ∈ items, failureEntry tla rla t =
      if decide (tla t.id = []) then some (t.id, "Failed to extract timeline")
      else none := by
    intro t ht
    by_cases hemp : tla t.id = []
    · unfold failureEntry processSingleTranscript
      simp [hemp, PyErr.text]
    · cases ha : analyzeRootCause t (tla t.id) (rla t.id) with
      | ok r =>
        unfold failureEntry processSingleTranscript
        simp [hemp, ha]
      | error e =>
        have := hok t ht hemp
        rw [ha] at this
        simp [Except.isOk, Except.toBool] at this
  have hmap : items.filterMap (failureEntry tla rla) =
      (items.filter (fun t => decide (tla t.id = []))).map
        (fun t => (t.id, "Failed to extract timeline")) :=
    filterMap_eq_map_filter _ _ _ _ hfail
  have hflen : (items.filterMap (failureEntry tla rla)).length = 1 := by
    rw [hmap, List.length_map, ← List.countP_eq_length_filter, hone]
  have hsome : ∀ t ∈ items,
      ((checkpointEntry tla rla t).isSome) = !(decide (tla t.id = [])) := by
    intro t ht
    by_cases hemp : tla t.id = []
    · unfold checkpointEntry processSingleTranscript
      simp [hemp]
    · cases ha : analyzeRootCause t (tla t.id) (rla t.id) with
      | ok r =>
        unfold checkpointEntry processSingleTranscript
        simp [hemp, ha]
      | error e =>
        have := hok t ht hemp
        rw [ha] at this
        simp [Except.isOk, Except.toBool] at this
  have hclen : (items.filterMap (checkpointEntry tla rla)).length =
      items.length - 1 := by
    rw [List.length_filterMap_eq_countP]
    have hcongr : items.countP (fun t => (checkpointEntry tla rla t).isSome) =
        items.countP (fun t => !(decide (tla t.id = []))) :=
      List.countP_congr (by
        intro t ht
        rw [hsome t ht])
    rw [hcongr]
    have htot := List.length_eq_countP_add_countP
      (fun t => decide (tla t.id = [])) (l := items)
    have hnot : items.countP (fun t => !(decide (tla t.id = []))) =
        items.countP (fun t => decide ¬(decide (tla t.id = []) = true)) := by
      apply List.countP_congr
      intro t ht
      simp
    rw [hnot]
    omega
  refine ⟨?_, ?_, ?_⟩
  · rw [h1, hmap]
  · rw [h1, List.length_append, hflen]
  · rw [h2, List.length_append, hclen]

/-- Witness for C5: a two-item batch where only item `b`'s timeline
extraction returns the empty sequence. -/
theorem C5_failure_isolation_witness :
    ([⟨"a", "x"⟩, ⟨"b", "y"⟩] : List Transcript).countP
        (fun t => decide ((fun s => if s = "b" then ([] : List TimelineEvent)
          else [⟨1, "Customer", "called"⟩]) t.id = [])) = 1 ∧
    (∀ t ∈ ([⟨"a", "x"⟩, ⟨"b", "y"⟩] : List Transcript),
      (fun s => if s = "b" then ([] : List TimelineEvent)
        else [⟨1, "Customer", "called"⟩]) t.id ≠ [] →
      (analyzeRootCause t ((fun s => if s = "b" then ([] : List TimelineEvent)
        else [⟨1, "Customer", "called"⟩]) t.id)
        ((fun _ => SvcResponse.noResponse) t.id)).isOk = true) ∧
    ((runScheduler (fun s => if s = "b" then ([] : List TimelineEvent)
        else [⟨1, "Customer", "called"⟩]) (fun _ => SvcResponse.noResponse)
        [⟨"a", "x"⟩, ⟨"b", "y"⟩] ⟨[], []⟩).failureLog =
      [] ++ (([⟨"a", "x"⟩, ⟨"b", "y"⟩] : List Transcript).filter
        (fun t => decide ((fun s => if s = "b" then ([] : List TimelineEvent)
          else [⟨1, "Customer", "called"⟩]) t.id = []))).map
        (fun t => (t.id, "Failed to extract timeline")) ∧
     (runScheduler (fun s => if s = "b" then ([] : List TimelineEvent)
        else [⟨1, "Customer", "called"⟩]) (fun _ => SvcResponse.noResponse)
        [⟨"a", "x"⟩, ⟨"b", "y"⟩] ⟨[], []⟩).failureLog.length =
       ([] : List (String × String)).length + 1 ∧
     (runScheduler (fun s => if s = "b" then ([] : List TimelineEvent)
        else [⟨1, "Customer", "called"⟩]) (fun _ => SvcResponse.noResponse)
        [⟨"a", "x"⟩, ⟨"b", "y"⟩] ⟨[], []⟩).checkpointLog.length =
       ([] : List LogLine).length +
         (([⟨"a", "x"⟩, ⟨"b", "y"⟩] : List Transcript).length - 1)) :=
  ⟨by decide, by decide,
    C5_failure_isolation [⟨"a", "x"⟩, ⟨"b", "y"⟩]
      (fun s => if s = "b" then ([] : List TimelineEvent)
        else [⟨1, "Customer", "called"⟩])
      (fun _ => SvcResponse.noResponse) ⟨[], []⟩ (by decide) (by decide)⟩
